import Mathlib

/-!
# Peripheral usage of the 802.15.4 driver on the nRF52 family

A shallow embedding of `nrf_802154/driver/src/nrf_802154_peripherals_nrf52.h`.

The header is a table of object-like macros. Each role macro is wrapped in `#ifndef`, so a
build can pre-define it; the three `*_USED_MASK` macros at the end are wrapped in `#ifndef`
as well. A build configuration is therefore: the set of pre-defined macros with their values,
whether `NRF_802154_FRAME_TIMESTAMP_ENABLED` is defined, and the value of the debug module's
`NRF_802154_DEBUG_PPI_CHANNELS_USED_MASK`. Every macro of the header becomes a function of the
configuration with the macro's own name.

The C expression `1 << n` on `int` is the natural number `2 ^ n` for `n < 31`; it is embedded
as `1 <<< n` on `Nat`, and `|` as `|||` on `Nat`.
-/

namespace Nrf802154

/-! ## Configuration -/

/-- Role macros of the header guarded by `#ifndef`: instance numbers, PPI channels and
PPI channel groups. -/
inductive Role
  | EGU_INSTANCE_NO
  | RTC_INSTANCE_NO
  | PPI_RADIO_RAMP_UP_TRIGG
  | PPI_RADIO_DISABLED_TO_EGU
  | PPI_EGU_TO_RADIO_RAMP_UP
  | PPI_EGU_TO_TIMER_START
  | PPI_RADIO_CRCERROR_TO_TIMER_CLEAR
  | PPI_RADIO_CCAIDLE_TO_FEM_GPIOTE
  | PPI_TIMER_COMPARE_TO_RADIO_TXEN
  | PPI_RADIO_CRCOK_TO_PPI_GRP_DISABLE
  | PPI_RADIO_SYNC_TO_EGU_SYNC
  | PPI_RTC_COMPARE_TO_TIMER_CAPTURE
  | PPI_TIMESTAMP_EVENT_TO_TIMER_CAPTURE
  | PPI_CORE_GROUP
  | PPI_ABORT_GROUP
  deriving DecidableEq, Repr

/-- Aggregate mask macros of the header guarded by `#ifndef`. -/
inductive MaskMacro
  | EGU_USED_MASK
  | PPI_CHANNELS_USED_MASK
  | PPI_GROUPS_USED_MASK
  deriving DecidableEq, Repr

/-- Kind of hardware resource a role macro names. -/
inductive ResourceClass
  | Channel
  | ChannelGroup
  | EguInstance
  | CounterInstance
  deriving DecidableEq, Repr

/-- Build configuration seen by the header. -/
structure Config where
  /-- Value of a role macro defined before the header is included, if any. -/
  predefined : Role → Option Nat
  /-- Value of a mask macro defined before the header is included, if any. -/
  predefinedMask : MaskMacro → Option Nat
  /-- Whether `NRF_802154_FRAME_TIMESTAMP_ENABLED` is defined. -/
  FRAME_TIMESTAMP_ENABLED : Bool
  /-- Whether the BCC-matching-disable feature of `nrf_802154_config.h` is enabled. -/
  DISABLE_BCC_MATCHING : Bool
  /-- Value of `NRF_802154_DEBUG_PPI_CHANNELS_USED_MASK` from `nrf_802154_debug.h`. -/
  DEBUG_PPI_CHANNELS_USED_MASK : Nat

/-- Configuration without any pre-defined macro. -/
def defaultConfig (ts bcc : Bool) (d : Nat) : Config :=
  { predefined := fun _ => none
    predefinedMask := fun _ => none
    FRAME_TIMESTAMP_ENABLED := ts
    DISABLE_BCC_MATCHING := bcc
    DEBUG_PPI_CHANNELS_USED_MASK := d }

/-- Pre-define role macro `r` as `v` on top of configuration `c`. -/
def Config.define (c : Config) (r : Role) (v : Nat) : Config :=
  { c with predefined := fun r' => if r' = r then some v else c.predefined r' }

/-- The same build with `NRF_802154_FRAME_TIMESTAMP_ENABLED` defined (`true`) or not
(`false`). -/
def Config.withTimestamp (c : Config) (ts : Bool) : Config :=
  { c with FRAME_TIMESTAMP_ENABLED := ts }

/-- The pattern `#ifndef M` / `#define M dflt` / `#endif`: the pre-defined value wins. -/
def ifndef (pre : Option Nat) (dflt : Nat) : Nat :=
  match pre with
  | some v => v
  | none => dflt

/-- Modelled from the spec: the enumerator `NRF_PPI_CHANNELn` of `hal/nrf_ppi.h`, which the
header includes but which is not part of it; it has the value `n`. -/
def NRF_PPI_CHANNEL (n : Nat) : Nat := n

/-- Modelled from the spec: the enumerator `NRF_PPI_CHANNEL_GROUPn` of `hal/nrf_ppi.h`, which
the header includes but which is not part of it; it has the value `n`. -/
def NRF_PPI_CHANNEL_GROUP (n : Nat) : Nat := n

/-! ## The macros of the header -/

def NRF_802154_EGU_INSTANCE_NO (c : Config) : Nat :=
  ifndef (c.predefined .EGU_INSTANCE_NO) 3

def NRF_802154_RTC_INSTANCE_NO (c : Config) : Nat :=
  ifndef (c.predefined .RTC_INSTANCE_NO) 2

def NRF_802154_PPI_RADIO_RAMP_UP_TRIGG (c : Config) : Nat :=
  ifndef (c.predefined .PPI_RADIO_RAMP_UP_TRIGG) (NRF_PPI_CHANNEL 6)

def NRF_802154_PPI_RADIO_DISABLED_TO_EGU (c : Config) : Nat :=
  ifndef (c.predefined .PPI_RADIO_DISABLED_TO_EGU) (NRF_PPI_CHANNEL 6)

def NRF_802154_PPI_EGU_TO_RADIO_RAMP_UP (c : Config) : Nat :=
  ifndef (c.predefined .PPI_EGU_TO_RADIO_RAMP_UP) (NRF_PPI_CHANNEL 7)

def NRF_802154_PPI_EGU_TO_TIMER_START (c : Config) : Nat :=
  ifndef (c.predefined .PPI_EGU_TO_TIMER_START) (NRF_PPI_CHANNEL 8)

def NRF_802154_PPI_RADIO_CRCERROR_TO_TIMER_CLEAR (c : Config) : Nat :=
  ifndef (c.predefined .PPI_RADIO_CRCERROR_TO_TIMER_CLEAR) (NRF_PPI_CHANNEL 9)

def NRF_802154_PPI_RADIO_CCAIDLE_TO_FEM_GPIOTE (c : Config) : Nat :=
  ifndef (c.predefined .PPI_RADIO_CCAIDLE_TO_FEM_GPIOTE) (NRF_PPI_CHANNEL 9)

def NRF_802154_PPI_TIMER_COMPARE_TO_RADIO_TXEN (c : Config) : Nat :=
  ifndef (c.predefined .PPI_TIMER_COMPARE_TO_RADIO_TXEN) (NRF_PPI_CHANNEL 9)

def NRF_802154_PPI_RADIO_CRCOK_TO_PPI_GRP_DISABLE (c : Config) : Nat :=
  ifndef (c.predefined .PPI_RADIO_CRCOK_TO_PPI_GRP_DISABLE) (NRF_PPI_CHANNEL 10)

def NRF_802154_PPI_RADIO_SYNC_TO_EGU_SYNC (c : Config) : Nat :=
  ifndef (c.predefined .PPI_RADIO_SYNC_TO_EGU_SYNC) (NRF_PPI_CHANNEL 11)

/-- Defined without any guard or condition: `(1 << NRF_802154_PPI_RADIO_SYNC_TO_EGU_SYNC)`. -/
def NRF_802154_DISABLE_BCC_MATCHING_PPI_CHANNELS_USED_MASK (c : Config) : Nat :=
  1 <<< NRF_802154_PPI_RADIO_SYNC_TO_EGU_SYNC c

/-- Value of the macro inside the `#ifdef NRF_802154_FRAME_TIMESTAMP_ENABLED` branch. -/
def NRF_802154_PPI_RTC_COMPARE_TO_TIMER_CAPTURE (c : Config) : Nat :=
  ifndef (c.predefined .PPI_RTC_COMPARE_TO_TIMER_CAPTURE) (NRF_PPI_CHANNEL 13)

/-- Value of the macro inside the `#ifdef NRF_802154_FRAME_TIMESTAMP_ENABLED` branch. -/
def NRF_802154_PPI_TIMESTAMP_EVENT_TO_TIMER_CAPTURE (c : Config) : Nat :=
  ifndef (c.predefined .PPI_TIMESTAMP_EVENT_TO_TIMER_CAPTURE) (NRF_PPI_CHANNEL 14)

def NRF_802154_TIMESTAMP_PPI_CHANNELS_USED_MASK (c : Config) : Nat :=
  if c.FRAME_TIMESTAMP_ENABLED then
    (1 <<< NRF_802154_PPI_RTC_COMPARE_TO_TIMER_CAPTURE c) |||
      (1 <<< NRF_802154_PPI_TIMESTAMP_EVENT_TO_TIMER_CAPTURE c)
  else
    0

def NRF_802154_PPI_CORE_GROUP (c : Config) : Nat :=
  ifndef (c.predefined .PPI_CORE_GROUP) (NRF_PPI_CHANNEL_GROUP 0)

def NRF_802154_PPI_ABORT_GROUP (c : Config) : Nat :=
  ifndef (c.predefined .PPI_ABORT_GROUP) (NRF_PPI_CHANNEL_GROUP 1)

def NRF_802154_EGU_USED_MASK (c : Config) : Nat :=
  ifndef (c.predefinedMask .EGU_USED_MASK) (1 <<< NRF_802154_EGU_INSTANCE_NO c)

def NRF_802154_PPI_CHANNELS_USED_MASK (c : Config) : Nat :=
  ifndef (c.predefinedMask .PPI_CHANNELS_USED_MASK)
    ((1 <<< NRF_802154_PPI_RADIO_DISABLED_TO_EGU c) |||
     (1 <<< NRF_802154_PPI_RADIO_RAMP_UP_TRIGG c) |||
     (1 <<< NRF_802154_PPI_EGU_TO_RADIO_RAMP_UP c) |||
     (1 <<< NRF_802154_PPI_EGU_TO_TIMER_START c) |||
     (1 <<< NRF_802154_PPI_RADIO_CRCERROR_TO_TIMER_CLEAR c) |||
     (1 <<< NRF_802154_PPI_RADIO_CCAIDLE_TO_FEM_GPIOTE c) |||
     (1 <<< NRF_802154_PPI_TIMER_COMPARE_TO_RADIO_TXEN c) |||
     (1 <<< NRF_802154_PPI_RADIO_CRCOK_TO_PPI_GRP_DISABLE c) |||
     NRF_802154_DISABLE_BCC_MATCHING_PPI_CHANNELS_USED_MASK c |||
     NRF_802154_TIMESTAMP_PPI_CHANNELS_USED_MASK c |||
     c.DEBUG_PPI_CHANNELS_USED_MASK)

def NRF_802154_PPI_GROUPS_USED_MASK (c : Config) : Nat :=
  ifndef (c.predefinedMask .PPI_GROUPS_USED_MASK)
    ((1 <<< NRF_802154_PPI_CORE_GROUP c) |||
     (1 <<< NRF_802154_PPI_ABORT_GROUP c))

/-! ## Resolution of roles -/

/-- Value a role macro has after the header, `none` when the macro is left undefined: the two
timestamping channels get their default only under `NRF_802154_FRAME_TIMESTAMP_ENABLED`. -/
def resolve (c : Config) : Role → Option Nat
  | .EGU_INSTANCE_NO => some (NRF_802154_EGU_INSTANCE_NO c)
  | .RTC_INSTANCE_NO => some (NRF_802154_RTC_INSTANCE_NO c)
  | .PPI_RADIO_RAMP_UP_TRIGG => some (NRF_802154_PPI_RADIO_RAMP_UP_TRIGG c)
  | .PPI_RADIO_DISABLED_TO_EGU => some (NRF_802154_PPI_RADIO_DISABLED_TO_EGU c)
  | .PPI_EGU_TO_RADIO_RAMP_UP => some (NRF_802154_PPI_EGU_TO_RADIO_RAMP_UP c)
  | .PPI_EGU_TO_TIMER_START => some (NRF_802154_PPI_EGU_TO_TIMER_START c)
  | .PPI_RADIO_CRCERROR_TO_TIMER_CLEAR => some (NRF_802154_PPI_RADIO_CRCERROR_TO_TIMER_CLEAR c)
  | .PPI_RADIO_CCAIDLE_TO_FEM_GPIOTE => some (NRF_802154_PPI_RADIO_CCAIDLE_TO_FEM_GPIOTE c)
  | .PPI_TIMER_COMPARE_TO_RADIO_TXEN => some (NRF_802154_PPI_TIMER_COMPARE_TO_RADIO_TXEN c)
  | .PPI_RADIO_CRCOK_TO_PPI_GRP_DISABLE => some (NRF_802154_PPI_RADIO_CRCOK_TO_PPI_GRP_DISABLE c)
  | .PPI_RADIO_SYNC_TO_EGU_SYNC => some (NRF_802154_PPI_RADIO_SYNC_TO_EGU_SYNC c)
  | .PPI_RTC_COMPARE_TO_TIMER_CAPTURE =>
      if c.FRAME_TIMESTAMP_ENABLED then some (NRF_802154_PPI_RTC_COMPARE_TO_TIMER_CAPTURE c)
      else c.predefined .PPI_RTC_COMPARE_TO_TIMER_CAPTURE
  | .PPI_TIMESTAMP_EVENT_TO_TIMER_CAPTURE =>
      if c.FRAME_TIMESTAMP_ENABLED then some (NRF_802154_PPI_TIMESTAMP_EVENT_TO_TIMER_CAPTURE c)
      else c.predefined .PPI_TIMESTAMP_EVENT_TO_TIMER_CAPTURE
  | .PPI_CORE_GROUP => some (NRF_802154_PPI_CORE_GROUP c)
  | .PPI_ABORT_GROUP => some (NRF_802154_PPI_ABORT_GROUP c)

/-- Resource class of each role macro. -/
def Role.resourceClass : Role → ResourceClass
  | .EGU_INSTANCE_NO => .EguInstance
  | .RTC_INSTANCE_NO => .CounterInstance
  | .PPI_CORE_GROUP => .ChannelGroup
  | .PPI_ABORT_GROUP => .ChannelGroup
  | _ => .Channel

/-- Channel roles whose bit enters `NRF_802154_PPI_CHANNELS_USED_MASK` under every
configuration. -/
def alwaysActiveChannelRoles : List Role :=
  [.PPI_RADIO_DISABLED_TO_EGU, .PPI_RADIO_RAMP_UP_TRIGG, .PPI_EGU_TO_RADIO_RAMP_UP,
   .PPI_EGU_TO_TIMER_START, .PPI_RADIO_CRCERROR_TO_TIMER_CLEAR,
   .PPI_RADIO_CCAIDLE_TO_FEM_GPIOTE, .PPI_TIMER_COMPARE_TO_RADIO_TXEN,
   .PPI_RADIO_CRCOK_TO_PPI_GRP_DISABLE, .PPI_RADIO_SYNC_TO_EGU_SYNC]

/-- Channel roles that exist only when the timestamping feature is enabled. -/
def timestampChannelRoles : List Role :=
  [.PPI_RTC_COMPARE_TO_TIMER_CAPTURE, .PPI_TIMESTAMP_EVENT_TO_TIMER_CAPTURE]

/-- All eleven channel roles. -/
def channelRoles : List Role :=
  alwaysActiveChannelRoles ++ timestampChannelRoles

/-- Channel roles that contribute to the channel mask under configuration `c`. -/
def activeChannelRoles (c : Config) : List Role :=
  alwaysActiveChannelRoles ++ (if c.FRAME_TIMESTAMP_ENABLED then timestampChannelRoles else [])

/-- The two channel group roles. -/
def groupRoles : List Role :=
  [.PPI_CORE_GROUP, .PPI_ABORT_GROUP]

/-- Number of set bits among the 32 bit positions of a mask. -/
def bitCount (m : Nat) : Nat :=
  ((List.range 32).filter (fun i => m.testBit i)).length

/-- Resolved identifiers of the channel roles active under `c`. -/
def activeChannelIds (c : Config) : List Nat :=
  (activeChannelRoles c).filterMap (resolve c)

/-- Pairs of distinct roles whose doc comments carry the note "The peripheral is shared
with ...". -/
def sharedPeripheral : Role → Role → Bool
  | .PPI_RADIO_RAMP_UP_TRIGG, .PPI_RADIO_DISABLED_TO_EGU => true
  | .PPI_RADIO_DISABLED_TO_EGU, .PPI_RADIO_RAMP_UP_TRIGG => true
  | .PPI_RADIO_CRCERROR_TO_TIMER_CLEAR, .PPI_RADIO_CCAIDLE_TO_FEM_GPIOTE => true
  | .PPI_RADIO_CRCERROR_TO_TIMER_CLEAR, .PPI_TIMER_COMPARE_TO_RADIO_TXEN => true
  | .PPI_RADIO_CCAIDLE_TO_FEM_GPIOTE, .PPI_RADIO_CRCERROR_TO_TIMER_CLEAR => true
  | .PPI_RADIO_CCAIDLE_TO_FEM_GPIOTE, .PPI_TIMER_COMPARE_TO_RADIO_TXEN => true
  | .PPI_TIMER_COMPARE_TO_RADIO_TXEN, .PPI_RADIO_CRCERROR_TO_TIMER_CLEAR => true
  | .PPI_TIMER_COMPARE_TO_RADIO_TXEN, .PPI_RADIO_CCAIDLE_TO_FEM_GPIOTE => true
  | _, _ => false

/-- Roles the header defines under every configuration. -/
def alwaysActiveRoles : List Role :=
  [.EGU_INSTANCE_NO, .RTC_INSTANCE_NO] ++ alwaysActiveChannelRoles ++ groupRoles

/-- All fifteen role macros. -/
def allRoles : List Role :=
  [.EGU_INSTANCE_NO, .RTC_INSTANCE_NO] ++ channelRoles ++ groupRoles

/-- Two distinct always-active roles of one resource class, not documented as sharing a
peripheral, resolve to the same identifier. -/
def resourceConflict (c : Config) : Bool :=
  alwaysActiveRoles.any fun r1 => alwaysActiveRoles.any fun r2 =>
    decide (r1 ≠ r2) && decide (r1.resourceClass = r2.resourceClass) &&
      !sharedPeripheral r1 r2 && decide (resolve c r1 = resolve c r2)

/-- Modelled from the spec: the validity predicate of the identifier space, "16 channels,
6 groups"; the header itself states no range, and the spec gives none for EGU and counter
instances. -/
def isValid : ResourceClass → Nat → Bool
  | .Channel, v => decide (v < 16)
  | .ChannelGroup, v => decide (v < 6)
  | .EguInstance, _ => true
  | .CounterInstance, _ => true

/-- Some role resolves to an identifier outside the valid range of its class. -/
def outOfRange (c : Config) : Bool :=
  allRoles.any fun r =>
    match resolve c r with
    | some v => !isValid r.resourceClass v
    | none => false

/-- What a translation unit sees after the header: the role assignments and the three
aggregate masks. -/
structure Resolved where
  assignment : Role → Option Nat
  eguMask : Nat
  channelsMask : Nat
  groupsMask : Nat

/-- Outcome of including the header under a configuration, `none` standing for a rejected
build. The header holds no `#error` directive, no static assertion and no comparison between
role macros, so every configuration is accepted. -/
def includeHeader (c : Config) : Option Resolved :=
  some
    { assignment := resolve c
      eguMask := NRF_802154_EGU_USED_MASK c
      channelsMask := NRF_802154_PPI_CHANNELS_USED_MASK c
      groupsMask := NRF_802154_PPI_GROUPS_USED_MASK c }

/-! ## Helper lemmas -/

theorem ifndef_none (dflt : Nat) : ifndef none dflt = dflt := rfl

theorem ifndef_some (v dflt : Nat) : ifndef (some v) dflt = v := rfl

theorem testBit_one_shiftLeft (n i : Nat) : (1 <<< n).testBit i = decide (n = i) := by
  rw [Nat.one_shiftLeft, Nat.testBit_two_pow]

/-- The channel mask macro when it is not pre-defined. -/
theorem channels_mask_eq (c : Config)
    (h : c.predefinedMask .PPI_CHANNELS_USED_MASK = none) :
    NRF_802154_PPI_CHANNELS_USED_MASK c =
      (1 <<< NRF_802154_PPI_RADIO_DISABLED_TO_EGU c) |||
      (1 <<< NRF_802154_PPI_RADIO_RAMP_UP_TRIGG c) |||
      (1 <<< NRF_802154_PPI_EGU_TO_RADIO_RAMP_UP c) |||
      (1 <<< NRF_802154_PPI_EGU_TO_TIMER_START c) |||
      (1 <<< NRF_802154_PPI_RADIO_CRCERROR_TO_TIMER_CLEAR c) |||
      (1 <<< NRF_802154_PPI_RADIO_CCAIDLE_TO_FEM_GPIOTE c) |||
      (1 <<< NRF_802154_PPI_TIMER_COMPARE_TO_RADIO_TXEN c) |||
      (1 <<< NRF_802154_PPI_RADIO_CRCOK_TO_PPI_GRP_DISABLE c) |||
      NRF_802154_DISABLE_BCC_MATCHING_PPI_CHANNELS_USED_MASK c |||
      NRF_802154_TIMESTAMP_PPI_CHANNELS_USED_MASK c |||
      c.DEBUG_PPI_CHANNELS_USED_MASK := by
  rw [NRF_802154_PPI_CHANNELS_USED_MASK, h, ifndef_none]

/-- The channel mask of a configuration without pre-defined macros. -/
theorem channels_mask_default (ts bcc : Bool) (d : Nat) :
    NRF_802154_PPI_CHANNELS_USED_MASK (defaultConfig ts bcc d) =
      (if ts then 0x6FC0 else 0xFC0) ||| d := by
  have h : ∀ a b : Nat, a = b → a ||| d = b ||| d := fun _ _ hab => by rw [hab]
  have e1 : NRF_802154_PPI_RADIO_DISABLED_TO_EGU (defaultConfig ts bcc d) = 6 := rfl
  have e2 : NRF_802154_PPI_RADIO_RAMP_UP_TRIGG (defaultConfig ts bcc d) = 6 := rfl
  have e3 : NRF_802154_PPI_EGU_TO_RADIO_RAMP_UP (defaultConfig ts bcc d) = 7 := rfl
  have e4 : NRF_802154_PPI_EGU_TO_TIMER_START (defaultConfig ts bcc d) = 8 := rfl
  have e5 : NRF_802154_PPI_RADIO_CRCERROR_TO_TIMER_CLEAR (defaultConfig ts bcc d) = 9 := rfl
  have e6 : NRF_802154_PPI_RADIO_CCAIDLE_TO_FEM_GPIOTE (defaultConfig ts bcc d) = 9 := rfl
  have e7 : NRF_802154_PPI_TIMER_COMPARE_TO_RADIO_TXEN (defaultConfig ts bcc d) = 9 := rfl
  have e8 : NRF_802154_PPI_RADIO_CRCOK_TO_PPI_GRP_DISABLE (defaultConfig ts bcc d) = 10 := rfl
  have e9 : NRF_802154_DISABLE_BCC_MATCHING_PPI_CHANNELS_USED_MASK (defaultConfig ts bcc d) =
      1 <<< 11 := rfl
  rw [channels_mask_eq _ rfl, e1, e2, e3, e4, e5, e6, e7, e8, e9]
  cases ts
  · have et : NRF_802154_TIMESTAMP_PPI_CHANNELS_USED_MASK (defaultConfig false bcc d) = 0 :=
      rfl
    rw [et]
    exact h _ _ (by decide)
  · have et : NRF_802154_TIMESTAMP_PPI_CHANNELS_USED_MASK (defaultConfig true bcc d) =
        1 <<< 13 ||| 1 <<< 14 := rfl
    rw [et]
    exact h _ _ (by decide)

/-- Pre-defining a role macro leaves the pre-defined value of every other role macro. -/
theorem define_predefined_of_ne (c : Config) (r r' : Role) (v : Nat) (h : r' ≠ r) :
    (c.define r v).predefined r' = c.predefined r' := by
  simp [Config.define, h]

/-- The channel mask after moving RADIO_RAMP_UP_TRIGG alone, from the defaults. -/
theorem channels_mask_define_ramp_up (ts bcc : Bool) (d x : Nat) :
    NRF_802154_PPI_CHANNELS_USED_MASK
        ((defaultConfig ts bcc d).define .PPI_RADIO_RAMP_UP_TRIGG x) =
      NRF_802154_PPI_CHANNELS_USED_MASK (defaultConfig ts bcc d) ||| (1 <<< x) := by
  have e1 : NRF_802154_PPI_RADIO_DISABLED_TO_EGU
      ((defaultConfig ts bcc d).define .PPI_RADIO_RAMP_UP_TRIGG x) =
      NRF_802154_PPI_RADIO_DISABLED_TO_EGU (defaultConfig ts bcc d) := rfl
  have e2 : NRF_802154_PPI_RADIO_RAMP_UP_TRIGG
      ((defaultConfig ts bcc d).define .PPI_RADIO_RAMP_UP_TRIGG x) = x := rfl
  have e2' : NRF_802154_PPI_RADIO_RAMP_UP_TRIGG (defaultConfig ts bcc d) =
      NRF_802154_PPI_RADIO_DISABLED_TO_EGU (defaultConfig ts bcc d) := rfl
  have e3 : NRF_802154_PPI_EGU_TO_RADIO_RAMP_UP
      ((defaultConfig ts bcc d).define .PPI_RADIO_RAMP_UP_TRIGG x) =
      NRF_802154_PPI_EGU_TO_RADIO_RAMP_UP (defaultConfig ts bcc d) := rfl
  have e4 : NRF_802154_PPI_EGU_TO_TIMER_START
      ((defaultConfig ts bcc d).define .PPI_RADIO_RAMP_UP_TRIGG x) =
      NRF_802154_PPI_EGU_TO_TIMER_START (defaultConfig ts bcc d) := rfl
  have e5 : NRF_802154_PPI_RADIO_CRCERROR_TO_TIMER_CLEAR
      ((defaultConfig ts bcc d).define .PPI_RADIO_RAMP_UP_TRIGG x) =
      NRF_802154_PPI_RADIO_CRCERROR_TO_TIMER_CLEAR (defaultConfig ts bcc d) := rfl
  have e6 : NRF_802154_PPI_RADIO_CCAIDLE_TO_FEM_GPIOTE
      ((defaultConfig ts bcc d).define .PPI_RADIO_RAMP_UP_TRIGG x) =
      NRF_802154_PPI_RADIO_CCAIDLE_TO_FEM_GPIOTE (defaultConfig ts bcc d) := rfl
  have e7 : NRF_802154_PPI_TIMER_COMPARE_TO_RADIO_TXEN
      ((defaultConfig ts bcc d).define .PPI_RADIO_RAMP_UP_TRIGG x) =
      NRF_802154_PPI_TIMER_COMPARE_TO_RADIO_TXEN (defaultConfig ts bcc d) := rfl
  have e8 : NRF_802154_PPI_RADIO_CRCOK_TO_PPI_GRP_DISABLE
      ((defaultConfig ts bcc d).define .PPI_RADIO_RAMP_UP_TRIGG x) =
      NRF_802154_PPI_RADIO_CRCOK_TO_PPI_GRP_DISABLE (defaultConfig ts bcc d) := rfl
  have e9 : NRF_802154_DISABLE_BCC_MATCHING_PPI_CHANNELS_USED_MASK
      ((defaultConfig ts bcc d).define .PPI_RADIO_RAMP_UP_TRIGG x) =
      NRF_802154_DISABLE_BCC_MATCHING_PPI_CHANNELS_USED_MASK (defaultConfig ts bcc d) := rfl
  have e10 : NRF_802154_TIMESTAMP_PPI_CHANNELS_USED_MASK
      ((defaultConfig ts bcc d).define .PPI_RADIO_RAMP_UP_TRIGG x) =
      NRF_802154_TIMESTAMP_PPI_CHANNELS_USED_MASK (defaultConfig ts bcc d) := rfl
  have e11 : ((defaultConfig ts bcc d).define
      .PPI_RADIO_RAMP_UP_TRIGG x).DEBUG_PPI_CHANNELS_USED_MASK =
      (defaultConfig ts bcc d).DEBUG_PPI_CHANNELS_USED_MASK := rfl
  rw [channels_mask_eq _ rfl, channels_mask_eq _ rfl, e1, e2, e3, e4, e5, e6, e7, e8, e9,
    e10, e11, e2']
  apply Nat.eq_of_testBit_eq
  intro i
  rw [Bool.eq_iff_iff]
  simp only [Nat.testBit_or, Bool.or_eq_true]
  simp only [or_assoc, or_comm, or_left_comm, or_self, or_self_left]

/-- Bit `i` of the channel mask, in terms of the identifiers of the active channel roles. -/
theorem testBit_channels_mask (c : Config)
    (hmask : c.predefinedMask .PPI_CHANNELS_USED_MASK = none) (i : Nat) :
    (NRF_802154_PPI_CHANNELS_USED_MASK c).testBit i = true ↔
      (c.DEBUG_PPI_CHANNELS_USED_MASK.testBit i = true ∨ i ∈ activeChannelIds c) := by
  rw [channels_mask_eq c hmask]
  cases hts : c.FRAME_TIMESTAMP_ENABLED <;>
    simp [-Nat.testBit_shiftLeft, NRF_802154_DISABLE_BCC_MATCHING_PPI_CHANNELS_USED_MASK,
      NRF_802154_TIMESTAMP_PPI_CHANNELS_USED_MASK, hts, testBit_one_shiftLeft,
      activeChannelIds, activeChannelRoles, alwaysActiveChannelRoles, timestampChannelRoles,
      resolve] <;>
    simp only [or_assoc, or_comm, or_left_comm, @eq_comm Nat i]

/-- Every active channel role is defined, so there are as many identifiers as roles. -/
theorem activeChannelIds_length (c : Config) :
    (activeChannelIds c).length = (activeChannelRoles c).length := by
  cases hts : c.FRAME_TIMESTAMP_ENABLED <;>
    simp [activeChannelIds, activeChannelRoles, alwaysActiveChannelRoles,
      timestampChannelRoles, resolve, hts]

/-- A mask whose set bits are exactly the members of a list of positions below 32 has as many
set bits as the list has distinct members. -/
theorem bitCount_eq_dedup_length (m : Nat) (l : List Nat) (hl : ∀ v ∈ l, v < 32)
    (hm : ∀ i, m.testBit i = true ↔ i ∈ l) : bitCount m = l.dedup.length := by
  unfold bitCount
  apply List.Perm.length_eq
  rw [List.perm_ext_iff_of_nodup ((List.nodup_range 32).filter _) (List.nodup_dedup l)]
  intro i
  rw [List.mem_filter, List.mem_range, List.mem_dedup, hm i]
  exact ⟨fun h => h.2, fun h => ⟨hl i h, h⟩⟩

/-- The channel mask with timestamping enabled is the mask with timestamping disabled ORed
with the bits of the two timestamping channels. -/
theorem channels_mask_withTimestamp (c : Config)
    (hmask : c.predefinedMask .PPI_CHANNELS_USED_MASK = none) :
    NRF_802154_PPI_CHANNELS_USED_MASK (c.withTimestamp true) =
      NRF_802154_PPI_CHANNELS_USED_MASK (c.withTimestamp false) |||
        ((1 <<< NRF_802154_PPI_RTC_COMPARE_TO_TIMER_CAPTURE c) |||
         (1 <<< NRF_802154_PPI_TIMESTAMP_EVENT_TO_TIMER_CAPTURE c)) := by
  have hon : NRF_802154_TIMESTAMP_PPI_CHANNELS_USED_MASK (c.withTimestamp true) =
      (1 <<< NRF_802154_PPI_RTC_COMPARE_TO_TIMER_CAPTURE c) |||
      (1 <<< NRF_802154_PPI_TIMESTAMP_EVENT_TO_TIMER_CAPTURE c) := rfl
  have hoff : NRF_802154_TIMESTAMP_PPI_CHANNELS_USED_MASK (c.withTimestamp false) = 0 := rfl
  have e1 : ∀ b, NRF_802154_PPI_RADIO_DISABLED_TO_EGU (c.withTimestamp b) =
      NRF_802154_PPI_RADIO_DISABLED_TO_EGU c := fun _ => rfl
  have e2 : ∀ b, NRF_802154_PPI_RADIO_RAMP_UP_TRIGG (c.withTimestamp b) =
      NRF_802154_PPI_RADIO_RAMP_UP_TRIGG c := fun _ => rfl
  have e3 : ∀ b, NRF_802154_PPI_EGU_TO_RADIO_RAMP_UP (c.withTimestamp b) =
      NRF_802154_PPI_EGU_TO_RADIO_RAMP_UP c := fun _ => rfl
  have e4 : ∀ b, NRF_802154_PPI_EGU_TO_TIMER_START (c.withTimestamp b) =
      NRF_802154_PPI_EGU_TO_TIMER_START c := fun _ => rfl
  have e5 : ∀ b, NRF_802154_PPI_RADIO_CRCERROR_TO_TIMER_CLEAR (c.withTimestamp b) =
      NRF_802154_PPI_RADIO_CRCERROR_TO_TIMER_CLEAR c := fun _ => rfl
  have e6 : ∀ b, NRF_802154_PPI_RADIO_CCAIDLE_TO_FEM_GPIOTE (c.withTimestamp b) =
      NRF_802154_PPI_RADIO_CCAIDLE_TO_FEM_GPIOTE c := fun _ => rfl
  have e7 : ∀ b, NRF_802154_PPI_TIMER_COMPARE_TO_RADIO_TXEN (c.withTimestamp b) =
      NRF_802154_PPI_TIMER_COMPARE_TO_RADIO_TXEN c := fun _ => rfl
  have e8 : ∀ b, NRF_802154_PPI_RADIO_CRCOK_TO_PPI_GRP_DISABLE (c.withTimestamp b) =
      NRF_802154_PPI_RADIO_CRCOK_TO_PPI_GRP_DISABLE c := fun _ => rfl
  have e9 : ∀ b, NRF_802154_DISABLE_BCC_MATCHING_PPI_CHANNELS_USED_MASK (c.withTimestamp b) =
      NRF_802154_DISABLE_BCC_MATCHING_PPI_CHANNELS_USED_MASK c := fun _ => rfl
  have e10 : ∀ b, (c.withTimestamp b).DEBUG_PPI_CHANNELS_USED_MASK =
      c.DEBUG_PPI_CHANNELS_USED_MASK := fun _ => rfl
  rw [channels_mask_eq (c.withTimestamp true) hmask,
    channels_mask_eq (c.withTimestamp false) hmask, hon, hoff]
  simp only [e1, e2, e3, e4, e5, e6, e7, e8, e9, e10]
  apply Nat.eq_of_testBit_eq
  intro i
  rw [Bool.eq_iff_iff]
  simp only [Nat.testBit_or, Nat.zero_testBit, Bool.or_false, Bool.or_eq_true]
  simp only [or_assoc, or_comm, or_left_comm]

/-! ## Claims -/

/-- C1: when the channel mask macro is not pre-defined and every channel role resolves to an
identifier below 31, bit `i` of `NRF_802154_PPI_CHANNELS_USED_MASK` is set if and only if bit
`i` of the debug fragment is set or `i` is the resolved identifier of an active channel role
(the nine unconditional roles, plus the two timestamping roles when timestamping is enabled). -/
theorem channels_mask_testBit_iff (c : Config)
    (hmask : c.predefinedMask .PPI_CHANNELS_USED_MASK = none)
    (_hlt : ∀ r ∈ channelRoles, ∀ v, resolve c r = some v → v < 31) (i : Nat) :
    (NRF_802154_PPI_CHANNELS_USED_MASK c).testBit i = true ↔
      (c.DEBUG_PPI_CHANNELS_USED_MASK.testBit i = true ∨
        ∃ r ∈ activeChannelRoles c, resolve c r = some i) := by
  cases hts : c.FRAME_TIMESTAMP_ENABLED <;>
    simp [-Nat.testBit_shiftLeft, NRF_802154_PPI_CHANNELS_USED_MASK, hmask, ifndef_none, ifndef_some,
      NRF_802154_DISABLE_BCC_MATCHING_PPI_CHANNELS_USED_MASK,
      NRF_802154_TIMESTAMP_PPI_CHANNELS_USED_MASK, hts, testBit_one_shiftLeft,
      activeChannelRoles, alwaysActiveChannelRoles, timestampChannelRoles, resolve] <;>
    simp only [or_assoc, or_comm, or_left_comm]

/-- Witness of C1 at the default configuration with timestamping, bit 9. -/
theorem channels_mask_testBit_iff_witness :
    (defaultConfig true false 0).predefinedMask .PPI_CHANNELS_USED_MASK = none ∧
    (∀ r ∈ channelRoles, ∀ v, resolve (defaultConfig true false 0) r = some v → v < 31) ∧
    ((NRF_802154_PPI_CHANNELS_USED_MASK (defaultConfig true false 0)).testBit 9 = true ↔
      ((defaultConfig true false 0).DEBUG_PPI_CHANNELS_USED_MASK.testBit 9 = true ∨
        ∃ r ∈ activeChannelRoles (defaultConfig true false 0),
          resolve (defaultConfig true false 0) r = some 9)) :=
  have hlt : ∀ r ∈ channelRoles, ∀ v,
      resolve (defaultConfig true false 0) r = some v → v < 31 := by
    intro r hr v hv
    cases r <;> simp [resolve, defaultConfig, ifndef_none, ifndef_some, NRF_PPI_CHANNEL,
      NRF_PPI_CHANNEL_GROUP, NRF_802154_EGU_INSTANCE_NO, NRF_802154_RTC_INSTANCE_NO,
      NRF_802154_PPI_RADIO_RAMP_UP_TRIGG, NRF_802154_PPI_RADIO_DISABLED_TO_EGU,
      NRF_802154_PPI_EGU_TO_RADIO_RAMP_UP, NRF_802154_PPI_EGU_TO_TIMER_START,
      NRF_802154_PPI_RADIO_CRCERROR_TO_TIMER_CLEAR, NRF_802154_PPI_RADIO_CCAIDLE_TO_FEM_GPIOTE,
      NRF_802154_PPI_TIMER_COMPARE_TO_RADIO_TXEN, NRF_802154_PPI_RADIO_CRCOK_TO_PPI_GRP_DISABLE,
      NRF_802154_PPI_RADIO_SYNC_TO_EGU_SYNC, NRF_802154_PPI_RTC_COMPARE_TO_TIMER_CAPTURE,
      NRF_802154_PPI_TIMESTAMP_EVENT_TO_TIMER_CAPTURE, NRF_802154_PPI_CORE_GROUP,
      NRF_802154_PPI_ABORT_GROUP] at hv <;> omega
  ⟨rfl, hlt, channels_mask_testBit_iff (defaultConfig true false 0) rfl hlt 9⟩

/-- C2: with no pre-defined macro and timestamping enabled, the channel mask is the debug
fragment ORed with the bits of channels 6, 7, 8, 9, 10, 11, 13 and 14 (0x6FC0); with a zero
debug fragment it has 8 set bits, the number of distinct channel numbers, while there are 11
active roles. -/
theorem default_channels_mask_timestamping (bcc : Bool) (d : Nat) :
    NRF_802154_PPI_CHANNELS_USED_MASK (defaultConfig true bcc d) = d ||| 0x6FC0 ∧
    (0x6FC0 : Nat) = (1 <<< 6) ||| (1 <<< 7) ||| (1 <<< 8) ||| (1 <<< 9) ||| (1 <<< 10) |||
      (1 <<< 11) ||| (1 <<< 13) ||| (1 <<< 14) ∧
    bitCount (NRF_802154_PPI_CHANNELS_USED_MASK (defaultConfig true bcc 0)) = 8 ∧
    (activeChannelIds (defaultConfig true bcc 0)).dedup.length = 8 ∧
    (activeChannelRoles (defaultConfig true bcc 0)).length = 11 := by
  have hmask : ∀ d', NRF_802154_PPI_CHANNELS_USED_MASK (defaultConfig true bcc d') =
      0x6FC0 ||| d' := fun d' => by rw [channels_mask_default]; rfl
  refine ⟨?_, by decide, ?_, ?_, ?_⟩
  · rw [hmask, Nat.lor_comm]
  · rw [hmask]; decide
  · cases bcc <;> decide
  · cases bcc <;> decide

/-- C7: with default assignments, two distinct always-active channel roles that are not
documented as sharing a peripheral resolve to different channels, CORE_GROUP differs from
ABORT_GROUP, and the default configuration holds no resource conflict. -/
theorem default_roles_distinct (ts bcc : Bool) (d : Nat) (r1 r2 : Role)
    (h1 : r1 ∈ alwaysActiveChannelRoles) (h2 : r2 ∈ alwaysActiveChannelRoles)
    (hne : r1 ≠ r2) (hshared : sharedPeripheral r1 r2 = false) :
    resolve (defaultConfig ts bcc d) r1 ≠ resolve (defaultConfig ts bcc d) r2 ∧
    NRF_802154_PPI_CORE_GROUP (defaultConfig ts bcc d) ≠
      NRF_802154_PPI_ABORT_GROUP (defaultConfig ts bcc d) ∧
    resourceConflict (defaultConfig ts bcc d) = false := by
  have hcore : NRF_802154_PPI_CORE_GROUP (defaultConfig ts bcc d) = 0 := rfl
  have habort : NRF_802154_PPI_ABORT_GROUP (defaultConfig ts bcc d) = 1 := rfl
  refine ⟨?_, by rw [hcore, habort]; decide, ?_⟩
  · have key : ∀ a ∈ alwaysActiveChannelRoles, ∀ b ∈ alwaysActiveChannelRoles,
        a ≠ b → sharedPeripheral a b = false →
        resolve (defaultConfig false false 0) a ≠ resolve (defaultConfig false false 0) b := by
      decide
    have hres : ∀ a ∈ alwaysActiveChannelRoles,
        resolve (defaultConfig ts bcc d) a = resolve (defaultConfig false false 0) a := by
      intro a ha
      simp only [alwaysActiveChannelRoles, List.mem_cons, List.mem_singleton,
        List.not_mem_nil, or_false] at ha
      rcases ha with rfl | rfl | rfl | rfl | rfl | rfl | rfl | rfl | rfl <;> rfl
    rw [hres r1 h1, hres r2 h2]
    exact key r1 h1 r2 h2 hne hshared
  · cases ts <;> cases bcc <;> rfl

/-- Witness of C7: EGU_TO_RADIO_RAMP_UP (channel 7) and EGU_TO_TIMER_START (channel 8). -/
theorem default_roles_distinct_witness :
    resolve (defaultConfig true false 0) .PPI_EGU_TO_RADIO_RAMP_UP ≠
      resolve (defaultConfig true false 0) .PPI_EGU_TO_TIMER_START ∧
    NRF_802154_PPI_CORE_GROUP (defaultConfig true false 0) ≠
      NRF_802154_PPI_ABORT_GROUP (defaultConfig true false 0) ∧
    resourceConflict (defaultConfig true false 0) = false :=
  default_roles_distinct true false 0 .PPI_EGU_TO_RADIO_RAMP_UP .PPI_EGU_TO_TIMER_START
    (by decide) (by decide) (by decide) (by decide)

/-- C8: with default assignments and either timestamping setting, every role macro the header
defines resolves to an identifier valid for its class: channel roles below 16, group roles
below 6. -/
theorem default_identifiers_valid (ts bcc : Bool) (d : Nat) (r : Role) (v : Nat)
    (h : resolve (defaultConfig ts bcc d) r = some v) :
    isValid r.resourceClass v = true ∧
    (r.resourceClass = .Channel → v < 16) ∧
    (r.resourceClass = .ChannelGroup → v < 6) ∧
    outOfRange (defaultConfig ts bcc d) = false := by
  have hv : isValid r.resourceClass v = true := by
    cases r <;> cases ts <;>
      simp [resolve, defaultConfig, ifndef_none, ifndef_some, NRF_PPI_CHANNEL, NRF_PPI_CHANNEL_GROUP,
      NRF_802154_EGU_INSTANCE_NO, NRF_802154_RTC_INSTANCE_NO,
      NRF_802154_PPI_RADIO_RAMP_UP_TRIGG, NRF_802154_PPI_RADIO_DISABLED_TO_EGU,
      NRF_802154_PPI_EGU_TO_RADIO_RAMP_UP, NRF_802154_PPI_EGU_TO_TIMER_START,
      NRF_802154_PPI_RADIO_CRCERROR_TO_TIMER_CLEAR, NRF_802154_PPI_RADIO_CCAIDLE_TO_FEM_GPIOTE,
      NRF_802154_PPI_TIMER_COMPARE_TO_RADIO_TXEN, NRF_802154_PPI_RADIO_CRCOK_TO_PPI_GRP_DISABLE,
      NRF_802154_PPI_RADIO_SYNC_TO_EGU_SYNC, NRF_802154_PPI_RTC_COMPARE_TO_TIMER_CAPTURE,
      NRF_802154_PPI_TIMESTAMP_EVENT_TO_TIMER_CAPTURE, NRF_802154_PPI_CORE_GROUP,
      NRF_802154_PPI_ABORT_GROUP] at h <;>
      subst h <;> decide
  refine ⟨hv, ?_, ?_, ?_⟩
  · intro hc
    rw [hc] at hv
    simpa [isValid] using hv
  · intro hc
    rw [hc] at hv
    simpa [isValid] using hv
  · cases ts <;> cases bcc <;> rfl

/-- Witness of C8: RADIO_RAMP_UP_TRIGG resolves to channel 6. -/
theorem default_identifiers_valid_witness :
    resolve (defaultConfig true false 0) .PPI_RADIO_RAMP_UP_TRIGG = some 6 ∧
    isValid Role.PPI_RADIO_RAMP_UP_TRIGG.resourceClass 6 = true ∧
    (Role.PPI_RADIO_RAMP_UP_TRIGG.resourceClass = .Channel → 6 < 16) ∧
    (Role.PPI_RADIO_RAMP_UP_TRIGG.resourceClass = .ChannelGroup → 6 < 6) ∧
    outOfRange (defaultConfig true false 0) = false :=
  ⟨rfl, default_identifiers_valid true false 0 .PPI_RADIO_RAMP_UP_TRIGG 6 rfl⟩

/-- C9: pre-defining role `r` as `v` leaves the resolved identifier of every other role, and
leaves every aggregate mask of a resource class other than that of `r`: a channel role changes
neither the groups mask nor the EGU mask, a group role neither the channel mask nor the EGU
mask, the EGU instance number neither the channel mask nor the groups mask. -/
theorem define_frame (c : Config) (r : Role) (v : Nat) :
    (∀ r', r' ≠ r → resolve (c.define r v) r' = resolve c r') ∧
    (r.resourceClass ≠ .Channel →
      NRF_802154_PPI_CHANNELS_USED_MASK (c.define r v) = NRF_802154_PPI_CHANNELS_USED_MASK c) ∧
    (r.resourceClass ≠ .ChannelGroup →
      NRF_802154_PPI_GROUPS_USED_MASK (c.define r v) = NRF_802154_PPI_GROUPS_USED_MASK c) ∧
    (r.resourceClass ≠ .EguInstance →
      NRF_802154_EGU_USED_MASK (c.define r v) = NRF_802154_EGU_USED_MASK c) := by
  have hts : (c.define r v).FRAME_TIMESTAMP_ENABLED = c.FRAME_TIMESTAMP_ENABLED := rfl
  have hpm : (c.define r v).predefinedMask = c.predefinedMask := rfl
  have hdbg : (c.define r v).DEBUG_PPI_CHANNELS_USED_MASK = c.DEBUG_PPI_CHANNELS_USED_MASK :=
    rfl
  refine ⟨?_, ?_, ?_, ?_⟩
  · intro r' hne
    have hp := define_predefined_of_ne c r r' v hne
    cases r' <;>
      simp only [resolve, hts, hp, NRF_802154_EGU_INSTANCE_NO, NRF_802154_RTC_INSTANCE_NO,
      NRF_802154_PPI_RADIO_RAMP_UP_TRIGG, NRF_802154_PPI_RADIO_DISABLED_TO_EGU,
      NRF_802154_PPI_EGU_TO_RADIO_RAMP_UP, NRF_802154_PPI_EGU_TO_TIMER_START,
      NRF_802154_PPI_RADIO_CRCERROR_TO_TIMER_CLEAR, NRF_802154_PPI_RADIO_CCAIDLE_TO_FEM_GPIOTE,
      NRF_802154_PPI_TIMER_COMPARE_TO_RADIO_TXEN, NRF_802154_PPI_RADIO_CRCOK_TO_PPI_GRP_DISABLE,
      NRF_802154_PPI_RADIO_SYNC_TO_EGU_SYNC, NRF_802154_PPI_RTC_COMPARE_TO_TIMER_CAPTURE,
      NRF_802154_PPI_TIMESTAMP_EVENT_TO_TIMER_CAPTURE, NRF_802154_PPI_CORE_GROUP,
      NRF_802154_PPI_ABORT_GROUP]
  · intro hcls
    have hp : ∀ r', r'.resourceClass = .Channel →
        (c.define r v).predefined r' = c.predefined r' := by
      intro r' hr'
      apply define_predefined_of_ne
      intro heq
      rw [heq] at hr'
      exact hcls hr'
    simp only [NRF_802154_PPI_CHANNELS_USED_MASK, hpm, hdbg, hts,
      NRF_802154_DISABLE_BCC_MATCHING_PPI_CHANNELS_USED_MASK,
      NRF_802154_TIMESTAMP_PPI_CHANNELS_USED_MASK,
      NRF_802154_PPI_RADIO_RAMP_UP_TRIGG, NRF_802154_PPI_RADIO_DISABLED_TO_EGU,
      NRF_802154_PPI_EGU_TO_RADIO_RAMP_UP, NRF_802154_PPI_EGU_TO_TIMER_START,
      NRF_802154_PPI_RADIO_CRCERROR_TO_TIMER_CLEAR, NRF_802154_PPI_RADIO_CCAIDLE_TO_FEM_GPIOTE,
      NRF_802154_PPI_TIMER_COMPARE_TO_RADIO_TXEN, NRF_802154_PPI_RADIO_CRCOK_TO_PPI_GRP_DISABLE,
      NRF_802154_PPI_RADIO_SYNC_TO_EGU_SYNC, NRF_802154_PPI_RTC_COMPARE_TO_TIMER_CAPTURE,
      NRF_802154_PPI_TIMESTAMP_EVENT_TO_TIMER_CAPTURE,
      hp .PPI_RADIO_RAMP_UP_TRIGG rfl, hp .PPI_RADIO_DISABLED_TO_EGU rfl,
      hp .PPI_EGU_TO_RADIO_RAMP_UP rfl, hp .PPI_EGU_TO_TIMER_START rfl,
      hp .PPI_RADIO_CRCERROR_TO_TIMER_CLEAR rfl, hp .PPI_RADIO_CCAIDLE_TO_FEM_GPIOTE rfl,
      hp .PPI_TIMER_COMPARE_TO_RADIO_TXEN rfl, hp .PPI_RADIO_CRCOK_TO_PPI_GRP_DISABLE rfl,
      hp .PPI_RADIO_SYNC_TO_EGU_SYNC rfl, hp .PPI_RTC_COMPARE_TO_TIMER_CAPTURE rfl,
      hp .PPI_TIMESTAMP_EVENT_TO_TIMER_CAPTURE rfl]
  · intro hcls
    have hp : ∀ r', r'.resourceClass = .ChannelGroup →
        (c.define r v).predefined r' = c.predefined r' := by
      intro r' hr'
      apply define_predefined_of_ne
      intro heq
      rw [heq] at hr'
      exact hcls hr'
    simp only [NRF_802154_PPI_GROUPS_USED_MASK, hpm, NRF_802154_PPI_CORE_GROUP,
      NRF_802154_PPI_ABORT_GROUP, hp .PPI_CORE_GROUP rfl, hp .PPI_ABORT_GROUP rfl]
  · intro hcls
    have hp : ∀ r', r'.resourceClass = .EguInstance →
        (c.define r v).predefined r' = c.predefined r' := by
      intro r' hr'
      apply define_predefined_of_ne
      intro heq
      rw [heq] at hr'
      exact hcls hr'
    simp only [NRF_802154_EGU_USED_MASK, hpm, NRF_802154_EGU_INSTANCE_NO,
      hp .EGU_INSTANCE_NO rfl]

/-- C10: from the default assignments, pre-defining RADIO_RAMP_UP_TRIGG (default channel 6) as
a channel `x` below 16 that no active role and no debug bit uses yields a channel mask that
agrees with the previous one at every bit position other than 6 and `x`, and leaves the groups
mask and the EGU mask. -/
theorem ramp_up_override_frame (ts bcc : Bool) (d x : Nat) (_hx : x < 16)
    (_hd : d.testBit x = false)
    (_hr : ∀ r ∈ activeChannelRoles (defaultConfig ts bcc d),
      resolve (defaultConfig ts bcc d) r ≠ some x) :
    resolve (defaultConfig ts bcc d) .PPI_RADIO_RAMP_UP_TRIGG = some 6 ∧
    resolve ((defaultConfig ts bcc d).define .PPI_RADIO_RAMP_UP_TRIGG x)
      .PPI_RADIO_RAMP_UP_TRIGG = some x ∧
    (∀ i, i ≠ 6 → i ≠ x →
      (NRF_802154_PPI_CHANNELS_USED_MASK
        ((defaultConfig ts bcc d).define .PPI_RADIO_RAMP_UP_TRIGG x)).testBit i =
      (NRF_802154_PPI_CHANNELS_USED_MASK (defaultConfig ts bcc d)).testBit i) ∧
    NRF_802154_PPI_GROUPS_USED_MASK
        ((defaultConfig ts bcc d).define .PPI_RADIO_RAMP_UP_TRIGG x) =
      NRF_802154_PPI_GROUPS_USED_MASK (defaultConfig ts bcc d) ∧
    NRF_802154_EGU_USED_MASK ((defaultConfig ts bcc d).define .PPI_RADIO_RAMP_UP_TRIGG x) =
      NRF_802154_EGU_USED_MASK (defaultConfig ts bcc d) := by
  refine ⟨rfl, ?_, ?_, rfl, rfl⟩
  · simp [resolve, NRF_802154_PPI_RADIO_RAMP_UP_TRIGG, Config.define, ifndef_none, ifndef_some]
  · intro i _ hix
    rw [channels_mask_define_ramp_up, Nat.testBit_or, testBit_one_shiftLeft]
    have : decide (x = i) = false := by simpa using fun h => hix h.symm
    rw [this, Bool.or_false]

/-- Witness of C10: timestamping enabled, zero debug fragment, the unused channel 12. -/
theorem ramp_up_override_frame_witness :
    (12 < 16) ∧ (Nat.testBit 0 12 = false) ∧
    (∀ r ∈ activeChannelRoles (defaultConfig true false 0),
      resolve (defaultConfig true false 0) r ≠ some 12) ∧
    (∀ i, i ≠ 6 → i ≠ 12 →
      (NRF_802154_PPI_CHANNELS_USED_MASK
        ((defaultConfig true false 0).define .PPI_RADIO_RAMP_UP_TRIGG 12)).testBit i =
      (NRF_802154_PPI_CHANNELS_USED_MASK (defaultConfig true false 0)).testBit i) :=
  ⟨by decide, by decide, by decide,
    (ramp_up_override_frame true false 0 12 (by decide) (by decide) (by decide)).2.2.1⟩

/-- C11: with default assignments and a debug fragment holding neither bit 13 nor bit 14,
the channel mask with timestamping enabled has bits 13 and 14 set, the mask with timestamping
disabled has neither, the two masks agree at every other bit position, and bits 6, 7, 8, 9 and
10 are set in both. -/
theorem timestamping_removes_bits_13_14 (bcc : Bool) (d : Nat)
    (h13 : d.testBit 13 = false) (h14 : d.testBit 14 = false) :
    (NRF_802154_PPI_CHANNELS_USED_MASK (defaultConfig true bcc d)).testBit 13 = true ∧
    (NRF_802154_PPI_CHANNELS_USED_MASK (defaultConfig true bcc d)).testBit 14 = true ∧
    (NRF_802154_PPI_CHANNELS_USED_MASK (defaultConfig false bcc d)).testBit 13 = false ∧
    (NRF_802154_PPI_CHANNELS_USED_MASK (defaultConfig false bcc d)).testBit 14 = false ∧
    (∀ i, i ≠ 13 → i ≠ 14 →
      (NRF_802154_PPI_CHANNELS_USED_MASK (defaultConfig true bcc d)).testBit i =
      (NRF_802154_PPI_CHANNELS_USED_MASK (defaultConfig false bcc d)).testBit i) ∧
    (∀ i ∈ [6, 7, 8, 9, 10],
      (NRF_802154_PPI_CHANNELS_USED_MASK (defaultConfig true bcc d)).testBit i = true ∧
      (NRF_802154_PPI_CHANNELS_USED_MASK (defaultConfig false bcc d)).testBit i = true) := by
  have hon : NRF_802154_PPI_CHANNELS_USED_MASK (defaultConfig true bcc d) = 0x6FC0 ||| d :=
    channels_mask_default true bcc d
  have hoff : NRF_802154_PPI_CHANNELS_USED_MASK (defaultConfig false bcc d) = 0xFC0 ||| d :=
    channels_mask_default false bcc d
  have hsplit : (0x6FC0 : Nat) = 0xFC0 ||| (1 <<< 13) ||| (1 <<< 14) := by decide
  rw [hon, hoff]
  refine ⟨?_, ?_, ?_, ?_, ?_, ?_⟩
  · rw [Nat.testBit_or, h13, Bool.or_false]; decide
  · rw [Nat.testBit_or, h14, Bool.or_false]; decide
  · rw [Nat.testBit_or, h13, Bool.or_false]; decide
  · rw [Nat.testBit_or, h14, Bool.or_false]; decide
  · intro i hi13 hi14
    have e13 : decide (13 = i) = false := by simpa using fun h => hi13 h.symm
    have e14 : decide (14 = i) = false := by simpa using fun h => hi14 h.symm
    rw [hsplit, Nat.testBit_or, Nat.testBit_or, Nat.testBit_or, Nat.testBit_or,
      testBit_one_shiftLeft, testBit_one_shiftLeft, e13, e14, Bool.or_false, Bool.or_false]
  · intro i hi
    have hbit : Nat.testBit 0x6FC0 i = true ∧ Nat.testBit 0xFC0 i = true := by
      simp only [List.mem_cons, List.mem_singleton, List.not_mem_nil, or_false] at hi
      rcases hi with rfl | rfl | rfl | rfl | rfl <;> decide
    rw [Nat.testBit_or, Nat.testBit_or, hbit.1, hbit.2, Bool.true_or]
    exact ⟨rfl, rfl⟩

/-- Witness of C11 at a zero debug fragment. -/
theorem timestamping_removes_bits_13_14_witness :
    Nat.testBit 0 13 = false ∧ Nat.testBit 0 14 = false ∧
    (NRF_802154_PPI_CHANNELS_USED_MASK (defaultConfig true false 0)).testBit 13 = true ∧
    (NRF_802154_PPI_CHANNELS_USED_MASK (defaultConfig false false 0)).testBit 13 = false :=
  have h := timestamping_removes_bits_13_14 false 0 (by decide) (by decide)
  ⟨by decide, by decide, h.1, h.2.2.1⟩

/-- C12: when the groups and EGU mask macros are not pre-defined and the core group, abort
group and EGU instance numbers are below 31, bit `i` of `NRF_802154_PPI_GROUPS_USED_MASK` is set
if and only if `i` is the core group or the abort group, and `NRF_802154_EGU_USED_MASK` is
`2 ^ NRF_802154_EGU_INSTANCE_NO`; with defaults (core group 0, abort group 1, EGU instance 3)
the groups mask is 3 and the EGU mask is 8. -/
theorem groups_and_egu_masks (c : Config) (ts bcc : Bool) (d : Nat)
    (hg : c.predefinedMask .PPI_GROUPS_USED_MASK = none)
    (he : c.predefinedMask .EGU_USED_MASK = none)
    (_hlt : NRF_802154_PPI_CORE_GROUP c < 31 ∧ NRF_802154_PPI_ABORT_GROUP c < 31 ∧
      NRF_802154_EGU_INSTANCE_NO c < 31) (i : Nat) :
    ((NRF_802154_PPI_GROUPS_USED_MASK c).testBit i = true ↔
      (i = NRF_802154_PPI_CORE_GROUP c ∨ i = NRF_802154_PPI_ABORT_GROUP c)) ∧
    NRF_802154_EGU_USED_MASK c = 2 ^ NRF_802154_EGU_INSTANCE_NO c ∧
    NRF_802154_PPI_CORE_GROUP (defaultConfig ts bcc d) = 0 ∧
    NRF_802154_PPI_ABORT_GROUP (defaultConfig ts bcc d) = 1 ∧
    NRF_802154_EGU_INSTANCE_NO (defaultConfig ts bcc d) = 3 ∧
    NRF_802154_PPI_GROUPS_USED_MASK (defaultConfig ts bcc d) = 3 ∧
    NRF_802154_EGU_USED_MASK (defaultConfig ts bcc d) = 8 := by
  have hcore : NRF_802154_PPI_CORE_GROUP (defaultConfig ts bcc d) = 0 := rfl
  have habort : NRF_802154_PPI_ABORT_GROUP (defaultConfig ts bcc d) = 1 := rfl
  have hegu : NRF_802154_EGU_INSTANCE_NO (defaultConfig ts bcc d) = 3 := rfl
  refine ⟨?_, ?_, hcore, habort, hegu, ?_, ?_⟩
  · rw [NRF_802154_PPI_GROUPS_USED_MASK, hg, ifndef_none, Nat.testBit_or,
      testBit_one_shiftLeft, testBit_one_shiftLeft, Bool.or_eq_true, decide_eq_true_eq,
      decide_eq_true_eq]
    constructor
    · rintro (h | h)
      · exact Or.inl h.symm
      · exact Or.inr h.symm
    · rintro (h | h)
      · exact Or.inl h.symm
      · exact Or.inr h.symm
  · rw [NRF_802154_EGU_USED_MASK, he, ifndef_none, Nat.one_shiftLeft]
  · have hm : (defaultConfig ts bcc d).predefinedMask .PPI_GROUPS_USED_MASK = none := rfl
    rw [NRF_802154_PPI_GROUPS_USED_MASK, hm, ifndef_none, hcore, habort]
    decide
  · have hm : (defaultConfig ts bcc d).predefinedMask .EGU_USED_MASK = none := rfl
    rw [NRF_802154_EGU_USED_MASK, hm, ifndef_none, hegu]
    decide

/-- Witness of C12 at the default configuration, bit 1. -/
theorem groups_and_egu_masks_witness :
    ((NRF_802154_PPI_GROUPS_USED_MASK (defaultConfig true false 0)).testBit 1 = true ↔
      (1 = NRF_802154_PPI_CORE_GROUP (defaultConfig true false 0) ∨
        1 = NRF_802154_PPI_ABORT_GROUP (defaultConfig true false 0))) ∧
    NRF_802154_EGU_USED_MASK (defaultConfig true false 0) =
      2 ^ NRF_802154_EGU_INSTANCE_NO (defaultConfig true false 0) :=
  have h := groups_and_egu_masks (defaultConfig true false 0) true false 0 rfl rfl
    (by decide) 1
  ⟨h.1, h.2.1⟩

/-- C13: with default assignments the roles documented as sharing a peripheral resolve to the
same channel: RADIO_RAMP_UP_TRIGG and RADIO_DISABLED_TO_EGU to channel 6, and
RADIO_CRCERROR_TO_TIMER_CLEAR, RADIO_CCAIDLE_TO_FEM_GPIOTE and TIMER_COMPARE_TO_RADIO_TXEN to
channel 9. -/
theorem default_shared_channels (ts bcc : Bool) (d : Nat) :
    resolve (defaultConfig ts bcc d) .PPI_RADIO_RAMP_UP_TRIGG = some 6 ∧
    resolve (defaultConfig ts bcc d) .PPI_RADIO_DISABLED_TO_EGU = some 6 ∧
    resolve (defaultConfig ts bcc d) .PPI_RADIO_CRCERROR_TO_TIMER_CLEAR = some 9 ∧
    resolve (defaultConfig ts bcc d) .PPI_RADIO_CCAIDLE_TO_FEM_GPIOTE = some 9 ∧
    resolve (defaultConfig ts bcc d) .PPI_TIMER_COMPARE_TO_RADIO_TXEN = some 9 :=
  ⟨rfl, rfl, rfl, rfl, rfl⟩

/-- C14 fails as stated: pre-defining RADIO_RAMP_UP_TRIGG alone as channel 12 is accepted and
makes it resolve to 12 while RADIO_DISABLED_TO_EGU stays on channel 6; pre-defining
TIMER_COMPARE_TO_RADIO_TXEN alone as channel 12 leaves the other two roles on channel 9. -/
theorem shared_peripheral_counterexample :
    (includeHeader ((defaultConfig true false 0).define .PPI_RADIO_RAMP_UP_TRIGG 12)).isSome =
      true ∧
    NRF_802154_PPI_RADIO_RAMP_UP_TRIGG
      ((defaultConfig true false 0).define .PPI_RADIO_RAMP_UP_TRIGG 12) = 12 ∧
    NRF_802154_PPI_RADIO_DISABLED_TO_EGU
      ((defaultConfig true false 0).define .PPI_RADIO_RAMP_UP_TRIGG 12) = 6 ∧
    NRF_802154_PPI_TIMER_COMPARE_TO_RADIO_TXEN
      ((defaultConfig true false 0).define .PPI_TIMER_COMPARE_TO_RADIO_TXEN 12) = 12 ∧
    NRF_802154_PPI_RADIO_CRCERROR_TO_TIMER_CLEAR
      ((defaultConfig true false 0).define .PPI_TIMER_COMPARE_TO_RADIO_TXEN 12) = 9 := by
  decide

/-- C14 (amended): in every configuration in which the roles documented as sharing a
peripheral are pre-defined alike (all left at their default, or all pre-defined as the same
value), the peripheral stays shared: RADIO_RAMP_UP_TRIGG resolves to the channel of
RADIO_DISABLED_TO_EGU, and RADIO_CRCERROR_TO_TIMER_CLEAR, RADIO_CCAIDLE_TO_FEM_GPIOTE and
TIMER_COMPARE_TO_RADIO_TXEN resolve to one common channel. -/
theorem shared_peripheral_of_like_predefinition (c : Config)
    (h1 : c.predefined .PPI_RADIO_RAMP_UP_TRIGG = c.predefined .PPI_RADIO_DISABLED_TO_EGU)
    (h2 : c.predefined .PPI_RADIO_CRCERROR_TO_TIMER_CLEAR =
      c.predefined .PPI_RADIO_CCAIDLE_TO_FEM_GPIOTE)
    (h3 : c.predefined .PPI_RADIO_CCAIDLE_TO_FEM_GPIOTE =
      c.predefined .PPI_TIMER_COMPARE_TO_RADIO_TXEN) :
    NRF_802154_PPI_RADIO_RAMP_UP_TRIGG c = NRF_802154_PPI_RADIO_DISABLED_TO_EGU c ∧
    NRF_802154_PPI_RADIO_CRCERROR_TO_TIMER_CLEAR c =
      NRF_802154_PPI_RADIO_CCAIDLE_TO_FEM_GPIOTE c ∧
    NRF_802154_PPI_RADIO_CCAIDLE_TO_FEM_GPIOTE c =
      NRF_802154_PPI_TIMER_COMPARE_TO_RADIO_TXEN c := by
  refine ⟨?_, ?_, ?_⟩
  · rw [NRF_802154_PPI_RADIO_RAMP_UP_TRIGG, NRF_802154_PPI_RADIO_DISABLED_TO_EGU, h1]
  · rw [NRF_802154_PPI_RADIO_CRCERROR_TO_TIMER_CLEAR,
      NRF_802154_PPI_RADIO_CCAIDLE_TO_FEM_GPIOTE, h2]
  · rw [NRF_802154_PPI_RADIO_CCAIDLE_TO_FEM_GPIOTE,
      NRF_802154_PPI_TIMER_COMPARE_TO_RADIO_TXEN, h3]

/-- Witness of the amended C14: all five roles pre-defined, alike within each sharing group. -/
theorem shared_peripheral_of_like_predefinition_witness :
    NRF_802154_PPI_RADIO_RAMP_UP_TRIGG
        (((defaultConfig true false 0).define .PPI_RADIO_RAMP_UP_TRIGG 12).define
          .PPI_RADIO_DISABLED_TO_EGU 12) =
      NRF_802154_PPI_RADIO_DISABLED_TO_EGU
        (((defaultConfig true false 0).define .PPI_RADIO_RAMP_UP_TRIGG 12).define
          .PPI_RADIO_DISABLED_TO_EGU 12) :=
  (shared_peripheral_of_like_predefinition
    (((defaultConfig true false 0).define .PPI_RADIO_RAMP_UP_TRIGG 12).define
      .PPI_RADIO_DISABLED_TO_EGU 12) (by decide) (by decide) (by decide)).1

/-- C15: when the channel mask macro is not pre-defined, the debug fragment is zero and every
channel role resolves to an identifier below 31, the number of set bits of
`NRF_802154_PPI_CHANNELS_USED_MASK` is the number of distinct identifiers among the active
roles; it is at most the number of active roles, with equality exactly when no two active
roles share an identifier. -/
theorem channels_mask_bitCount (c : Config)
    (hmask : c.predefinedMask .PPI_CHANNELS_USED_MASK = none)
    (hd : c.DEBUG_PPI_CHANNELS_USED_MASK = 0)
    (hlt : ∀ r ∈ channelRoles, ∀ v, resolve c r = some v → v < 31) :
    bitCount (NRF_802154_PPI_CHANNELS_USED_MASK c) = (activeChannelIds c).dedup.length ∧
    bitCount (NRF_802154_PPI_CHANNELS_USED_MASK c) ≤ (activeChannelRoles c).length ∧
    (bitCount (NRF_802154_PPI_CHANNELS_USED_MASK c) = (activeChannelRoles c).length ↔
      (activeChannelIds c).Nodup) := by
  have hsub : ∀ r ∈ activeChannelRoles c, r ∈ channelRoles := by
    intro r hr
    unfold activeChannelRoles at hr
    unfold channelRoles
    rcases List.mem_append.1 hr with h | h
    · exact List.mem_append.2 (Or.inl h)
    · cases hts : c.FRAME_TIMESTAMP_ENABLED
      · rw [hts] at h
        exact absurd h (List.not_mem_nil r)
      · rw [hts] at h
        exact List.mem_append.2 (Or.inr h)
  have hbound : ∀ v ∈ activeChannelIds c, v < 32 := by
    intro v hv
    obtain ⟨r, hr, hrv⟩ := List.mem_filterMap.1 hv
    exact Nat.lt_succ_of_lt (hlt r (hsub r hr) v hrv)
  have hbits : ∀ i, (NRF_802154_PPI_CHANNELS_USED_MASK c).testBit i = true ↔
      i ∈ activeChannelIds c := by
    intro i
    rw [testBit_channels_mask c hmask i, hd, Nat.zero_testBit]
    simp
  have hcount := bitCount_eq_dedup_length _ _ hbound hbits
  have hlen := activeChannelIds_length c
  refine ⟨hcount, ?_, ?_⟩
  · rw [hcount, ← hlen]
    exact (List.dedup_sublist _).length_le
  · rw [hcount, ← hlen]
    constructor
    · intro h
      have heq := (List.dedup_sublist (activeChannelIds c)).eq_of_length h
      rw [← heq]
      exact List.nodup_dedup _
    · intro h
      rw [h.dedup]

/-- Witness of C15 at the default configuration with timestamping: 8 set bits, 11 roles. -/
theorem channels_mask_bitCount_witness :
    (defaultConfig true false 0).predefinedMask .PPI_CHANNELS_USED_MASK = none ∧
    (defaultConfig true false 0).DEBUG_PPI_CHANNELS_USED_MASK = 0 ∧
    bitCount (NRF_802154_PPI_CHANNELS_USED_MASK (defaultConfig true false 0)) =
      (activeChannelIds (defaultConfig true false 0)).dedup.length ∧
    bitCount (NRF_802154_PPI_CHANNELS_USED_MASK (defaultConfig true false 0)) = 8 :=
  have hlt : ∀ r ∈ channelRoles, ∀ v,
      resolve (defaultConfig true false 0) r = some v → v < 31 := by
    intro r hr v hv
    have hall : ∀ r' ∈ channelRoles,
        (resolve (defaultConfig true false 0) r').all (fun w => decide (w < 31)) = true := by
      decide
    have h := hall r hr
    rw [hv] at h
    simpa using h
  ⟨rfl, rfl, (channels_mask_bitCount (defaultConfig true false 0) rfl rfl hlt).1, by decide⟩

/-- C16: when the channel mask macro is not pre-defined and the channel roles resolve to
identifiers below 31, the channel mask with timestamping enabled is the mask with timestamping
disabled ORed with `(1 << RTC_COMPARE_TO_TIMER_CAPTURE) | (1 << TIMESTAMP_EVENT_TO_TIMER_CAPTURE)`;
so the disabled mask is a subset of the enabled one, the two differ at no bit position other
than those two identifiers, and `NRF_802154_TIMESTAMP_PPI_CHANNELS_USED_MASK` is 0 when
timestamping is disabled. -/
theorem timestamping_mask_relation (c : Config)
    (hmask : c.predefinedMask .PPI_CHANNELS_USED_MASK = none)
    (_hlt : ∀ r ∈ channelRoles, ∀ v, resolve (c.withTimestamp true) r = some v → v < 31) :
    NRF_802154_PPI_CHANNELS_USED_MASK (c.withTimestamp true) =
      NRF_802154_PPI_CHANNELS_USED_MASK (c.withTimestamp false) |||
        ((1 <<< NRF_802154_PPI_RTC_COMPARE_TO_TIMER_CAPTURE c) |||
         (1 <<< NRF_802154_PPI_TIMESTAMP_EVENT_TO_TIMER_CAPTURE c)) ∧
    (∀ i, (NRF_802154_PPI_CHANNELS_USED_MASK (c.withTimestamp false)).testBit i = true →
      (NRF_802154_PPI_CHANNELS_USED_MASK (c.withTimestamp true)).testBit i = true) ∧
    (∀ i, i ≠ NRF_802154_PPI_RTC_COMPARE_TO_TIMER_CAPTURE c →
      i ≠ NRF_802154_PPI_TIMESTAMP_EVENT_TO_TIMER_CAPTURE c →
      (NRF_802154_PPI_CHANNELS_USED_MASK (c.withTimestamp true)).testBit i =
      (NRF_802154_PPI_CHANNELS_USED_MASK (c.withTimestamp false)).testBit i) ∧
    NRF_802154_TIMESTAMP_PPI_CHANNELS_USED_MASK (c.withTimestamp false) = 0 := by
  have hrel := channels_mask_withTimestamp c hmask
  refine ⟨hrel, ?_, ?_, rfl⟩
  · intro i hi
    rw [hrel, Nat.testBit_or, hi, Bool.true_or]
  · intro i h1 h2
    have e1 : decide (NRF_802154_PPI_RTC_COMPARE_TO_TIMER_CAPTURE c = i) = false := by
      simpa using fun h => h1 h.symm
    have e2 : decide (NRF_802154_PPI_TIMESTAMP_EVENT_TO_TIMER_CAPTURE c = i) = false := by
      simpa using fun h => h2 h.symm
    rw [hrel, Nat.testBit_or, Nat.testBit_or, testBit_one_shiftLeft, testBit_one_shiftLeft,
      e1, e2, Bool.or_false, Bool.or_false]

/-- Witness of C16 at the default configuration. -/
theorem timestamping_mask_relation_witness :
    (defaultConfig false false 0).predefinedMask .PPI_CHANNELS_USED_MASK = none ∧
    NRF_802154_PPI_CHANNELS_USED_MASK ((defaultConfig false false 0).withTimestamp true) =
      NRF_802154_PPI_CHANNELS_USED_MASK ((defaultConfig false false 0).withTimestamp false) |||
        ((1 <<< NRF_802154_PPI_RTC_COMPARE_TO_TIMER_CAPTURE (defaultConfig false false 0)) |||
         (1 <<< NRF_802154_PPI_TIMESTAMP_EVENT_TO_TIMER_CAPTURE (defaultConfig false false 0))) :=
  have hlt : ∀ r ∈ channelRoles, ∀ v,
      resolve ((defaultConfig false false 0).withTimestamp true) r = some v → v < 31 := by
    intro r hr v hv
    have hall : ∀ r' ∈ channelRoles,
        (resolve ((defaultConfig false false 0).withTimestamp true) r').all
          (fun w => decide (w < 31)) = true := by
      decide
    have h := hall r hr
    rw [hv] at h
    simpa using h
  ⟨rfl, (timestamping_mask_relation (defaultConfig false false 0) rfl hlt).1⟩

/-- C18: from the default assignments, pre-defining only RADIO_RAMP_UP_TRIGG as a channel `x`
below 31 clears no bit: the new channel mask is the old one ORed with `1 << x`, bit 6 stays set
and RADIO_DISABLED_TO_EGU still resolves to channel 6. -/
theorem ramp_up_override_clears_nothing (ts bcc : Bool) (d x : Nat) (_hx : x < 31) :
    NRF_802154_PPI_CHANNELS_USED_MASK
        ((defaultConfig ts bcc d).define .PPI_RADIO_RAMP_UP_TRIGG x) =
      NRF_802154_PPI_CHANNELS_USED_MASK (defaultConfig ts bcc d) ||| (1 <<< x) ∧
    (∀ i, (NRF_802154_PPI_CHANNELS_USED_MASK (defaultConfig ts bcc d)).testBit i = true →
      (NRF_802154_PPI_CHANNELS_USED_MASK
        ((defaultConfig ts bcc d).define .PPI_RADIO_RAMP_UP_TRIGG x)).testBit i = true) ∧
    (NRF_802154_PPI_CHANNELS_USED_MASK
        ((defaultConfig ts bcc d).define .PPI_RADIO_RAMP_UP_TRIGG x)).testBit 6 = true ∧
    resolve ((defaultConfig ts bcc d).define .PPI_RADIO_RAMP_UP_TRIGG x)
      .PPI_RADIO_DISABLED_TO_EGU = some 6 := by
  have hrel := channels_mask_define_ramp_up ts bcc d x
  have h6 : (NRF_802154_PPI_CHANNELS_USED_MASK (defaultConfig ts bcc d)).testBit 6 = true := by
    rw [channels_mask_default, Nat.testBit_or, Bool.or_eq_true]
    refine Or.inl ?_
    cases ts <;> decide
  refine ⟨hrel, ?_, ?_, rfl⟩
  · intro i hi
    rw [hrel, Nat.testBit_or, hi, Bool.true_or]
  · rw [hrel, Nat.testBit_or, h6, Bool.true_or]

/-- Witness of C18: RADIO_RAMP_UP_TRIGG moved to channel 12. -/
theorem ramp_up_override_clears_nothing_witness :
    (12 < 31) ∧
    NRF_802154_PPI_CHANNELS_USED_MASK
        ((defaultConfig true false 0).define .PPI_RADIO_RAMP_UP_TRIGG 12) =
      NRF_802154_PPI_CHANNELS_USED_MASK (defaultConfig true false 0) ||| (1 <<< 12) :=
  ⟨by decide, (ramp_up_override_clears_nothing true false 0 12 (by decide)).1⟩

/-- C19: with default assignments and either timestamping setting, every role macro the header
defines has a value of at most 14, so each shift `1 << identifier` of the channel, group and
EGU masks stays below `2 ^ 31`; with a zero debug fragment the channel mask is 28608 (0x6FC0)
with timestamping and 4032 (0x0FC0) without, both below `2 ^ 16`, so no bit from position 16
on is set. -/
theorem default_shifts_in_range (ts bcc : Bool) (d : Nat) (r : Role) (v : Nat)
    (h : resolve (defaultConfig ts bcc d) r = some v) :
    v ≤ 14 ∧ 1 <<< v < 2 ^ 31 ∧
    NRF_802154_PPI_CHANNELS_USED_MASK (defaultConfig true bcc 0) = 28608 ∧
    NRF_802154_PPI_CHANNELS_USED_MASK (defaultConfig false bcc 0) = 4032 ∧
    NRF_802154_PPI_CHANNELS_USED_MASK (defaultConfig true bcc 0) < 2 ^ 16 ∧
    NRF_802154_PPI_CHANNELS_USED_MASK (defaultConfig false bcc 0) < 2 ^ 16 ∧
    (∀ i, 16 ≤ i →
      (NRF_802154_PPI_CHANNELS_USED_MASK (defaultConfig ts bcc 0)).testBit i = false) := by
  have hv : v ≤ 14 ∧ 1 <<< v < 2 ^ 31 := by
    cases r <;> cases ts <;>
      simp [resolve, defaultConfig, ifndef_none, ifndef_some, NRF_PPI_CHANNEL,
        NRF_PPI_CHANNEL_GROUP, NRF_802154_EGU_INSTANCE_NO, NRF_802154_RTC_INSTANCE_NO,
      NRF_802154_PPI_RADIO_RAMP_UP_TRIGG, NRF_802154_PPI_RADIO_DISABLED_TO_EGU,
      NRF_802154_PPI_EGU_TO_RADIO_RAMP_UP, NRF_802154_PPI_EGU_TO_TIMER_START,
      NRF_802154_PPI_RADIO_CRCERROR_TO_TIMER_CLEAR, NRF_802154_PPI_RADIO_CCAIDLE_TO_FEM_GPIOTE,
      NRF_802154_PPI_TIMER_COMPARE_TO_RADIO_TXEN, NRF_802154_PPI_RADIO_CRCOK_TO_PPI_GRP_DISABLE,
      NRF_802154_PPI_RADIO_SYNC_TO_EGU_SYNC, NRF_802154_PPI_RTC_COMPARE_TO_TIMER_CAPTURE,
      NRF_802154_PPI_TIMESTAMP_EVENT_TO_TIMER_CAPTURE, NRF_802154_PPI_CORE_GROUP,
      NRF_802154_PPI_ABORT_GROUP] at h <;>
      subst h <;> decide
  have hon : NRF_802154_PPI_CHANNELS_USED_MASK (defaultConfig true bcc 0) = 28608 := by
    rw [channels_mask_default]; decide
  have hoff : NRF_802154_PPI_CHANNELS_USED_MASK (defaultConfig false bcc 0) = 4032 := by
    rw [channels_mask_default]; decide
  refine ⟨hv.1, hv.2, hon, hoff, by rw [hon]; decide, by rw [hoff]; decide, ?_⟩
  intro i hi
  have hlt : NRF_802154_PPI_CHANNELS_USED_MASK (defaultConfig ts bcc 0) < 2 ^ 16 := by
    cases ts
    · rw [hoff]; decide
    · rw [hon]; decide
  exact Nat.testBit_lt_two_pow (Nat.lt_of_lt_of_le hlt (Nat.pow_le_pow_right (by decide) hi))

/-- Witness of C19: the timestamp event channel 14, the largest default identifier. -/
theorem default_shifts_in_range_witness :
    resolve (defaultConfig true false 0) .PPI_TIMESTAMP_EVENT_TO_TIMER_CAPTURE = some 14 ∧
    (14 ≤ 14 ∧ 1 <<< 14 < 2 ^ 31) :=
  have h := default_shifts_in_range true false 0 .PPI_TIMESTAMP_EVENT_TO_TIMER_CAPTURE 14 rfl
  ⟨rfl, h.1, h.2.1⟩

end Nrf802154
